import Mathlib

/-!
Shallow embedding of the "powerfour" employee compensation engine.

Source files:
- the AI / heuristic engine (`calculateSuggestedSalary`, `heuristicAnalysis`,
  `callOpenAI`, `analyzeEmployee`, `analyzeAllEmployees`);
- the HTTP routes (employee upsert, `/analyze`, `/action`).

Modelling conventions:
- JS numbers are modelled as `ℚ` (exact arithmetic); `Math.round` is
  `jsRound` (floor of x + 1/2, which is JS round-half-up).
- Optional / possibly-`undefined` fields are `Option`; the JS `x || d`
  idiom (which treats 0, "" and undefined as falsy) is `jsOrQ` / `jsOrStr`.
- Timestamps (`new Date()`) are modelled by an abstract `now : ℕ` passed in.
- The external HTTP call of `callOpenAI` is modelled by an `AIEnv` value
  describing the wire outcome (request error / empty body / unparseable
  body / parsed payload); everything after the wire is embedded from source.
-/

namespace PowerFour

/-- JS `Math.round`: round half towards positive infinity. -/
def jsRound (q : ℚ) : ℤ := (q + 1/2).floor

/-- JS `x || d` for an optional number: `undefined` and `0` are falsy. -/
def jsOrQ : Option ℚ → ℚ → ℚ
  | none, d => d
  | some v, d => if v = 0 then d else v

/-- JS `a || b` on numbers already present: `0` is falsy. -/
def jsOr0 (a b : ℚ) : ℚ := if a = 0 then b else a

/-- JS `s || d` for an optional string: `undefined` and `""` are falsy. -/
def jsOrStr : Option String → String → String
  | none, d => d
  | some s, d => if s = "" then d else s

/-- JS truthiness of an optional number, as a `Bool`. -/
def truthyQ : Option ℚ → Bool
  | none => false
  | some v => v != 0

/-- Whether `pat` is an initial segment of the second list. -/
def listPrefixEq : List Char → List Char → Bool
  | [], _ => true
  | _ :: _, [] => false
  | a :: as, b :: bs => a == b && listPrefixEq as bs

/-- Whether `pat` occurs as a contiguous segment of the second list. -/
def listHasSub (pat : List Char) : List Char → Bool
  | [] => listPrefixEq pat []
  | c :: cs => listPrefixEq pat (c :: cs) || listHasSub pat cs

/-- JS `String.prototype.includes`: substring containment. -/
def strIncludes (s pat : String) : Bool := listHasSub pat.data s.data

/-- ASCII lower-casing (JS `toLowerCase` on the ASCII role names used here). -/
def strLower (s : String) : String := String.mk (s.data.map Char.toLower)

/-- JS `Number.prototype.toFixed(2)` re-read as a number (both uses in the
source are on small non-negative values, where toFixed rounds half up). -/
def toFixed2 (q : ℚ) : ℚ := ((jsRound (q * 100) : ℤ) : ℚ) / 100

/-- The dynamically typed `performance` attribute (number, string, or absent). -/
inductive PerfVal where
  | num (q : ℚ)
  | str (s : String)
  | undef
  deriving DecidableEq

/-- A market salary band `{min, mid, max}`. -/
structure MarketRange where
  min : ℚ
  mid : ℚ
  max : ℚ
  deriving DecidableEq

/-- `MARKET_SALARY_RANGES` keyed lookup (object property access). -/
def marketLookup (role : String) : Option MarketRange :=
  if role = "intern" then some ⟨180000, 300000, 480000⟩
  else if role = "junior" then some ⟨360000, 500000, 700000⟩
  else if role = "developer" then some ⟨600000, 1000000, 1800000⟩
  else if role = "engineer" then some ⟨600000, 1000000, 1800000⟩
  else if role = "senior developer" then some ⟨1200000, 1800000, 2800000⟩
  else if role = "senior engineer" then some ⟨1200000, 1800000, 2800000⟩
  else if role = "lead" then some ⟨1500000, 2200000, 3500000⟩
  else if role = "manager" then some ⟨1200000, 1800000, 3000000⟩
  else if role = "senior manager" then some ⟨1800000, 2500000, 4000000⟩
  else if role = "director" then some ⟨2500000, 4000000, 6000000⟩
  else if role = "sales" then some ⟨400000, 800000, 1500000⟩
  else if role = "unknown" then some ⟨400000, 700000, 1200000⟩
  else none

/-- Market band lookup with the source's fallback to the "unknown" band. -/
def marketFor (role : String) : MarketRange :=
  (marketLookup role).getD ⟨400000, 700000, 1200000⟩

/-- An employee as seen by the engine (`emp` argument of the ai module). -/
structure Emp where
  ssid : String
  name : Option String := none
  role : Option String := none
  performance : PerfVal := .undef
  experience : Option ℚ := none
  salary : Option ℚ := none
  revenue : Option ℚ := none
  deriving DecidableEq

/-- `(emp.role || "unknown").toLowerCase()`. -/
def roleOf (emp : Emp) : String := strLower (jsOrStr emp.role "unknown")

/-- Performance score derivation shared by `calculateSuggestedSalary` and
`heuristicAnalysis`: clamp a numeric value into [0,10]; map qualitative
labels by substring; default 5. -/
def perfScoreOf : PerfVal → ℚ
  | .num q => max 0 (min 10 q)
  | .str s =>
      let t := strLower s
      if strIncludes t "excel" || strIncludes t "ex" then 9
      else if strIncludes t "good" then 7
      else if strIncludes t "avg" || strIncludes t "average" then 5
      else if strIncludes t "poor" || strIncludes t "low" then 2
      else 5
  | .undef => 5

/-- Experience-piecewise base salary from the market band (source lines
52-63 of the engine). -/
def baseSalaryOf (r : MarketRange) (experience : ℚ) : ℚ :=
  if experience ≤ 2 then
    r.min + (r.mid - r.min) * (experience / 2)
  else if experience ≤ 5 then
    r.mid + (r.max - r.mid) * ((experience - 2) / 3) * 0.5
  else
    r.mid + (r.max - r.mid) * min 1 ((experience - 2) / 8)

/-- `0.8 + (perfScore / 10) * 0.4`. -/
def perfMultiplierOf (perfScore : ℚ) : ℚ := 0.8 + (perfScore / 10) * 0.4

/-- Revenue-based salary: `revenue * (1 - 0.4)` when revenue is positive,
else 0 (the variable is initialised to 0 in the source). -/
def revenueBasedOf (revenue : ℚ) : ℚ :=
  if revenue > 0 then revenue * (1 - 0.4) else 0

/-- Budget factor as the source computes it: the guard is
`if (budget && totalEmployees > 0)`, so an absent budget and a zero budget
both leave the factor at 1. -/
def budgetFactorOf (budget : Option ℚ) (n : ℕ) (base : ℚ) : ℚ :=
  match budget with
  | none => 1
  | some b =>
      if b = 0 ∨ n = 0 then 1
      else if b / n < base * 0.8 then 0.85
      else if b / n > base * 1.5 then 1.1
      else 1

/-- Base salary of an employee (band and experience resolved). -/
def baseOf (emp : Emp) : ℚ :=
  baseSalaryOf (marketFor (roleOf emp)) (emp.experience.getD 0)

/-- The market path `baseSalary * perfMultiplier`. -/
def marketPathOf (emp : Emp) : ℚ :=
  baseOf emp * perfMultiplierOf (perfScoreOf emp.performance)

/-- Blend of market path and revenue path (40% / 60% when the revenue-based
salary is positive). -/
def blendedOf (emp : Emp) : ℚ :=
  let rbs := revenueBasedOf (jsOrQ emp.revenue 0)
  if rbs > 0 then marketPathOf emp * 0.4 + rbs * 0.6 else marketPathOf emp

/-- Round to the nearest multiple of 1000 (`Math.round(s / 1000) * 1000`). -/
def round1000 (x : ℚ) : ℚ := ((jsRound (x / 1000) : ℤ) : ℚ) * 1000

/-- `Math.max(min * 0.9, Math.min(max * 1.2, s))`. -/
def clampToBand (r : MarketRange) (s : ℚ) : ℚ :=
  max (r.min * 0.9) (min (r.max * 1.2) s)

/-- Factor breakdown returned inside the salary analysis. -/
structure SalaryFactors where
  baseSalary : ℚ
  perfMultiplier : ℚ
  revenueBasedSalary : ℚ
  budgetFactor : ℚ
  deriving DecidableEq

/-- Return value of `calculateSuggestedSalary`. -/
structure SalaryAnalysis where
  suggestedSalary : ℚ
  salaryDifference : ℚ
  salaryDifferencePercent : ℚ
  marketRange : MarketRange
  factors : SalaryFactors
  deriving DecidableEq

/-- Embedding of `calculateSuggestedSalary(emp, budget, totalEmployees)`. -/
def calculateSuggestedSalary (emp : Emp) (budget : Option ℚ) (n : ℕ) :
    SalaryAnalysis :=
  let marketRange := marketFor (roleOf emp)
  let currentSalary := jsOrQ emp.salary 0
  let baseSalary := baseOf emp
  let perfMultiplier := perfMultiplierOf (perfScoreOf emp.performance)
  let revenueBasedSalary := revenueBasedOf (jsOrQ emp.revenue 0)
  let budgetFactor := budgetFactorOf budget n baseSalary
  let clamped := clampToBand marketRange (round1000 (blendedOf emp * budgetFactor))
  let salaryDifference := if currentSalary > 0 then clamped - currentSalary else 0
  let salaryDifferencePercent :=
    if currentSalary > 0
      then ((jsRound (salaryDifference / currentSalary * 100) : ℤ) : ℚ)
      else 0
  { suggestedSalary := ((jsRound clamped : ℤ) : ℚ)
    salaryDifference := salaryDifference
    salaryDifferencePercent := salaryDifferencePercent
    marketRange := marketRange
    factors :=
      { baseSalary := ((jsRound baseSalary : ℤ) : ℚ)
        perfMultiplier := toFixed2 perfMultiplier
        revenueBasedSalary := ((jsRound revenueBasedSalary : ℤ) : ℚ)
        budgetFactor := toFixed2 budgetFactor } }

/-- Per-role estimated yearly revenue table of `heuristicAnalysis`, with the
source's two chained `||` fallbacks resolved (every table value is nonzero,
so the second `||` only catches roles missing from the table). -/
def roleRevenueFor (role : String) : ℚ :=
  if role = "engineer" then 2000000
  else if role = "developer" then 2000000
  else if role = "senior developer" then 3500000
  else if role = "manager" then 4000000
  else if role = "sales" then 5000000
  else if role = "intern" then 200000
  else if role = "unknown" then 1200000
  else 1200000

/-- `estimatedSalary = currentSalary || marketRange.mid` where
`currentSalary = emp.salary || 0`. -/
def estimatedSalaryOf (emp : Emp) : ℚ :=
  jsOrQ emp.salary (marketFor (roleOf emp)).mid

/-- `emp.revenue || roleRevenue[role] || roleRevenue["unknown"]`. -/
def estimatedRevenueOf (emp : Emp) : ℚ :=
  jsOrQ emp.revenue (roleRevenueFor (roleOf emp))

/-- `profit = estimatedRevenue - estimatedSalary`. -/
def profitOf (emp : Emp) : ℚ := estimatedRevenueOf emp - estimatedSalaryOf emp

/-- Decision thresholds of `heuristicAnalysis`, in source order. -/
def heuristicAction (emp : Emp) (budget : Option ℚ) : String :=
  let perfScore := perfScoreOf emp.performance
  let estimatedSalary := estimatedSalaryOf emp
  let profit := profitOf emp
  if perfScore ≤ 3 ∨ profit < -0.2 * estimatedSalary then "FIRE"
  else if perfScore ≥ 8 ∧ profit > 0.2 * estimatedSalary ∧
      (truthyQ budget = false ∨ budget.getD 0 > estimatedSalary * 0.1) then
    "PROMOTE"
  else if profit < 0.05 * estimatedSalary ∨
      (truthyQ budget = true ∧ budget.getD 0 < 0) then
    "DECREASE_SALARY"
  else "NO_CHANGE"

/-- The decision score feeding the confidence value. -/
def heuristicScore (emp : Emp) (budget : Option ℚ) : ℚ :=
  let perfScore := perfScoreOf emp.performance
  let experience := emp.experience.getD 0
  let profitPerSalary := profitOf emp / max 1 (estimatedSalaryOf emp)
  let budgetFactor : ℚ :=
    match budget with
    | none => 1
    | some b => if b = 0 then 1 else if b > 0 then 1 else 0.5
  (profitPerSalary * 5 + (perfScore - 5) * 0.5 + min experience 10 * 0.1) *
    budgetFactor

/-- Data interpolated into the heuristic's `reason` string; the locale
string formatting (`formatINR`) is presentational and out of scope. -/
structure HeurReason where
  estimatedRevenue : ℚ
  estimatedSalary : ℚ
  profit : ℚ
  perfScore : ℚ
  experience : ℚ
  budget : Option ℚ
  deriving DecidableEq

/-- Return value of `heuristicAnalysis`. -/
structure HeurResult where
  action : String
  confidence : ℚ
  reasonData : HeurReason
  recommended_change_percent : ℚ
  currentSalary : ℚ
  suggestedSalary : ℚ
  salaryDifference : ℚ
  salaryDifferencePercent : ℚ
  marketSalaryRange : MarketRange
  salaryFactors : SalaryFactors
  estimatedRevenue : ℚ
  profit : ℚ
  deriving DecidableEq

/-- Embedding of `heuristicAnalysis(emp, budget, totalEmployees)`. -/
def heuristicAnalysis (emp : Emp) (budget : Option ℚ) (n : ℕ) : HeurResult :=
  let action := heuristicAction emp budget
  let confidence := min 0.95 (max 0.2 (0.5 + |heuristicScore emp budget| / 10))
  let salaryAnalysis := calculateSuggestedSalary emp budget n
  { action := action
    confidence := toFixed2 confidence
    reasonData :=
      { estimatedRevenue := estimatedRevenueOf emp
        estimatedSalary := estimatedSalaryOf emp
        profit := profitOf emp
        perfScore := perfScoreOf emp.performance
        experience := emp.experience.getD 0
        budget := budget }
    recommended_change_percent :=
      if action = "PROMOTE" then 10
      else if action = "DECREASE_SALARY" then -10
      else 0
    currentSalary := jsOr0 (jsOrQ emp.salary 0) (estimatedSalaryOf emp)
    suggestedSalary := salaryAnalysis.suggestedSalary
    salaryDifference := salaryAnalysis.salaryDifference
    salaryDifferencePercent := salaryAnalysis.salaryDifferencePercent
    marketSalaryRange := salaryAnalysis.marketRange
    salaryFactors := salaryAnalysis.factors
    estimatedRevenue := estimatedRevenueOf emp
    profit := profitOf emp }

/-- Structured payload extracted (by the bracket heuristic + `JSON.parse`)
from the external service's reply, together with the fields the bridge
writes back onto it. Absent JSON keys are `none`. -/
structure Parsed where
  action : Option String := none
  confidence : Option ℚ := none
  reasonText : Option String := none
  recommended_change_percent : Option ℚ := none
  suggestedSalary : Option ℚ := none
  salaryReason : Option String := none
  salaryDifference : Option ℚ := none
  salaryDifferencePercent : Option ℚ := none
  marketSalaryRange : Option MarketRange := none
  currentSalary : Option ℚ := none
  deriving DecidableEq

/-- Post-wire processing of `callOpenAI` on a successfully parsed payload:
attach market range and current salary, apply the below-10000 sanity
correction, then recompute the salary difference fields when both the
(possibly corrected) suggested salary and the employee's salary are truthy. -/
def postProcess (p : Parsed) (emp : Emp) (sa : SalaryAnalysis)
    (mr : MarketRange) : Parsed :=
  let p1 := { p with marketSalaryRange := some mr,
                     currentSalary := some (jsOrQ emp.salary 0) }
  let p2 :=
    match p1.suggestedSalary with
    | some v =>
        if v ≠ 0 ∧ v < 10000 then
          { p1 with suggestedSalary := some sa.suggestedSalary,
                    salaryReason := some ((p1.salaryReason.getD "") ++
                      " (Salary calculated using market analysis)") }
        else p1
    | none => p1
  match p2.suggestedSalary, emp.salary with
  | some v, some s =>
      if v ≠ 0 ∧ s ≠ 0 then
        { p2 with salaryDifference := some (v - s),
                  salaryDifferencePercent :=
                    some ((jsRound ((v - s) / s * 100) : ℤ) : ℚ) }
      else p2
  | _, _ => p2

/-- Outcome of the external HTTP exchange, as seen by `callOpenAI` after
`axios.post`: the request may reject, the body may have no message text,
the extracted bracket region may fail `JSON.parse`, or a payload parses. -/
inductive AIEnv where
  | requestError
  | emptyResponse
  | unparseable
  | parsed (p : Parsed)
  deriving DecidableEq

/-- Embedding of `callOpenAI(employee, budget, totalEmployees)`: every
pre-payload failure propagates as an error; a parsed payload is
post-processed. -/
def callOpenAI (env : AIEnv) (emp : Emp) (budget : Option ℚ) (n : ℕ) :
    Except String Parsed :=
  let salaryAnalysis := calculateSuggestedSalary emp budget n
  let marketRange := marketFor (roleOf emp)
  match env with
  | .requestError => .error "request failed"
  | .emptyResponse => .error "Empty response from OpenAI"
  | .unparseable => .error "json parse failure"
  | .parsed p => .ok (postProcess p emp salaryAnalysis marketRange)

/-- A suggestion as returned by `analyzeEmployee`: either the heuristic
object or the AI payload (the JS code spreads one or the other). -/
inductive Suggestion where
  | fromHeur (h : HeurResult)
  | fromAI (p : Parsed)
  deriving DecidableEq

/-- `action` field of a suggestion (always present on the heuristic path). -/
def sugAction : Suggestion → Option String
  | .fromHeur h => some h.action
  | .fromAI p => p.action

/-- `suggestedSalary` field of a suggestion. -/
def sugSuggested : Suggestion → Option ℚ
  | .fromHeur h => some h.suggestedSalary
  | .fromAI p => p.suggestedSalary

/-- Return value of `analyzeEmployee`: the suggestion plus the `using` tag. -/
structure AnalyzeResult where
  suggestion : Suggestion
  usingTag : String
  deriving DecidableEq

/-- Embedding of `analyzeEmployee(employee, budget, totalEmployees)`:
always compute the heuristic; without a credential return it; otherwise try
the AI path, keeping its result only when a truthy `action` is present, and
fall back to the heuristic on any thrown error. -/
def analyzeEmployee (hasKey : Bool) (env : AIEnv) (emp : Emp)
    (budget : Option ℚ) (n : ℕ) : AnalyzeResult :=
  let h := heuristicAnalysis emp budget n
  if hasKey = false then ⟨.fromHeur h, "heuristic"⟩
  else
    match callOpenAI env emp budget n with
    | .error _ => ⟨.fromHeur h, "heuristic"⟩
    | .ok p =>
        match p.action with
        | some a => if a = "" then ⟨.fromHeur h, "heuristic"⟩
                    else ⟨.fromAI p, "openai"⟩
        | none => ⟨.fromHeur h, "heuristic"⟩

/-- One per-employee row of `analyzeAllEmployees`' `results` array. -/
structure BatchRow where
  ssid : String
  name : Option String
  role : Option String
  currentSalary : Option ℚ
  suggestion : AnalyzeResult
  deriving DecidableEq

/-- The four action counters of the batch summary. -/
structure ActionBreakdown where
  FIRE : ℕ
  PROMOTE : ℕ
  DECREASE_SALARY : ℕ
  NO_CHANGE : ℕ
  deriving DecidableEq

/-- The `summary` object of `analyzeAllEmployees`. -/
structure BatchSummary where
  totalEmployees : ℕ
  companyBudget : Option ℚ
  totalCurrentSalaries : ℚ
  totalSuggestedSalaries : ℚ
  totalRevenue : ℚ
  actionBreakdown : ActionBreakdown
  projectedSavings : ℚ
  currentProfitMargin : ℚ
  projectedProfitMargin : ℚ
  deriving DecidableEq

/-- Return value of `analyzeAllEmployees`. -/
structure BatchOutput where
  results : List BatchRow
  summary : BatchSummary
  deriving DecidableEq

/-- Embedding of `analyzeAllEmployees(employees, budget)`. Each employee is
paired with the wire outcome its sequential `analyzeEmployee` call sees. -/
def analyzeAllEmployees (hasKey : Bool) (pairs : List (Emp × AIEnv))
    (budget : Option ℚ) : BatchOutput :=
  let totalEmployees := pairs.length
  let results : List BatchRow := pairs.map (fun pr =>
    { ssid := pr.1.ssid
      name := pr.1.name
      role := pr.1.role
      currentSalary := pr.1.salary
      suggestion := analyzeEmployee hasKey pr.2 pr.1 budget totalEmployees })
  let totalCurrentSalaries := (pairs.map (fun pr => jsOrQ pr.1.salary 0)).sum
  let totalSuggestedSalaries :=
    (results.map (fun r => jsOrQ (sugSuggested r.suggestion.suggestion) 0)).sum
  let totalRevenue := (pairs.map (fun pr => jsOrQ pr.1.revenue 0)).sum
  { results := results
    summary :=
      { totalEmployees := totalEmployees
        companyBudget := budget
        totalCurrentSalaries := totalCurrentSalaries
        totalSuggestedSalaries := totalSuggestedSalaries
        totalRevenue := totalRevenue
        actionBreakdown :=
          { FIRE := results.countP
              (fun r => sugAction r.suggestion.suggestion == some "FIRE")
            PROMOTE := results.countP
              (fun r => sugAction r.suggestion.suggestion == some "PROMOTE")
            DECREASE_SALARY := results.countP
              (fun r => sugAction r.suggestion.suggestion == some "DECREASE_SALARY")
            NO_CHANGE := results.countP
              (fun r => sugAction r.suggestion.suggestion == some "NO_CHANGE") }
        projectedSavings := totalCurrentSalaries - totalSuggestedSalaries
        currentProfitMargin :=
          if totalRevenue > 0
            then ((jsRound ((1 - totalCurrentSalaries / totalRevenue) * 100) : ℤ) : ℚ)
            else 0
        projectedProfitMargin :=
          if totalRevenue > 0
            then ((jsRound ((1 - totalSuggestedSalaries / totalRevenue) * 100) : ℤ) : ℚ)
            else 0 } }

/-- The suggestion subdocument as the Employee mongoose schema stores it.
The schema declares no `estimatedSalary` path (strict mode drops unknown
keys on `$set`), which is why the route's read of
`emp.suggestion?.estimatedSalary` can never produce a value. -/
structure StoredSuggestion where
  action : Option String := none
  confidence : Option ℚ := none
  recommended_change_percent : Option ℚ := none
  currentSalary : Option ℚ := none
  suggestedSalary : Option ℚ := none
  salaryDifference : Option ℚ := none
  salaryDifferencePercent : Option ℚ := none
  estimatedRevenue : Option ℚ := none
  profit : Option ℚ := none
  deriving DecidableEq

/-- A persisted employee document (Employee mongoose model). -/
structure EmpRec where
  ssid : String
  name : Option String := none
  performance : PerfVal := .undef
  experience : Option ℚ := none
  role : Option String := none
  salary : Option ℚ := none
  revenue : Option ℚ := none
  status : String := "ACTIVE"
  suggestion : Option StoredSuggestion := none
  lastAnalyzed : Option ℕ := none
  lastPromotedAt : Option ℕ := none
  terminatedAt : Option ℕ := none
  deriving DecidableEq

/-- The in-memory `actionDetails` object built by the `/action` route. -/
structure ActionDetails where
  effect : String
  previousSalary : Option ℚ := none
  newSalary : Option ℚ := none
  changePercent : Option ℚ := none
  previousStatus : Option String := none
  newStatus : Option String := none
  salary : Option ℚ := none
  deriving DecidableEq

/-- A persisted action history document (Action mongoose model). -/
structure ActionRecord where
  ssid : String
  action : String
  note : Option String
  details : ActionDetails
  appliedAt : ℕ
  deriving DecidableEq

/-- The route's `validActions` list. -/
def validActions : List String :=
  ["FIRE", "PROMOTE", "DECREASE_SALARY", "NO_CHANGE"]

/-- `note: note || null` (an empty string note is stored as null). -/
def jsNote : Option String → Option String
  | none => none
  | some s => if s = "" then none else some s

/-- `changePercent !== undefined ? changePercent :
emp.suggestion?.recommended_change_percent || (fixed default)`. Note the
`||`: a stored recommended percent of 0 falls through to the default. -/
def appliedPercentOf (emp : EmpRec) (action : String)
    (changePercent : Option ℚ) : ℚ :=
  match changePercent with
  | some c => c
  | none =>
      jsOrQ (emp.suggestion.bind (fun sg => sg.recommended_change_percent))
        (if action = "PROMOTE" then 10
         else if action = "DECREASE_SALARY" then -10
         else 0)

/-- `previousSalary = emp.salary || emp.suggestion?.estimatedSalary || 0`;
the middle term is always undefined (see `StoredSuggestion`), so the chain
resolves to `emp.salary || 0`. -/
def previousSalaryOf (emp : EmpRec) : ℚ := jsOrQ emp.salary 0

/-- The `switch (action)` block of the `/action` route: mutate the employee
document and build the effect-details payload. -/
def applyActionToEmp (emp : EmpRec) (action : String) (pct : ℚ) (now : ℕ) :
    EmpRec × ActionDetails :=
  let previousSalary := previousSalaryOf emp
  if action = "FIRE" then
    ({ emp with status := "FIRED", terminatedAt := some now },
     { effect := "Employee terminated",
       previousStatus := some "ACTIVE", newStatus := some "FIRED" })
  else if action = "PROMOTE" then
    let newSalary := ((jsRound (previousSalary * (1 + pct / 100)) : ℤ) : ℚ)
    ({ emp with status := "ACTIVE", salary := some newSalary,
                lastPromotedAt := some now },
     { effect := "Salary increased", previousSalary := some previousSalary,
       newSalary := some newSalary, changePercent := some pct })
  else if action = "DECREASE_SALARY" then
    let newSalary := ((jsRound (previousSalary * (1 + pct / 100)) : ℤ) : ℚ)
    ({ emp with status := "ACTIVE", salary := some newSalary },
     { effect := "Salary decreased", previousSalary := some previousSalary,
       newSalary := some newSalary, changePercent := some pct })
  else
    ({ emp with status := "ACTIVE" },
     { effect := "No changes made", salary := some previousSalary })

/-- Failure modes of the `/action` route (HTTP 400 / 400 / 404). -/
inductive ApplyErr where
  | missingFields
  | invalidAction
  | notFound
  deriving DecidableEq

/-- Embedding of the `POST /action` route: validate inputs, look the
employee up by ssid, apply the transition, and create exactly one Action
record. `now` stands for the route's `new Date()` calls. -/
def applyAction (db : List EmpRec) (ssid action : String)
    (note : Option String) (changePercent : Option ℚ) (now : ℕ) :
    Except ApplyErr (EmpRec × ActionRecord) :=
  if ssid = "" ∨ action = "" then .error .missingFields
  else if action ∉ validActions then .error .invalidAction
  else
    match db.find? (fun e => e.ssid == ssid) with
    | none => .error .notFound
    | some emp =>
        let pct := appliedPercentOf emp action changePercent
        let out := applyActionToEmp emp action pct now
        .ok (out.1,
          { ssid := ssid, action := action, note := jsNote note,
            details := out.2, appliedAt := now })

/-- Embedding of the `POST /employees` upsert route's `$set` payload on an
existing document: core fields are replaced and `status` is reset to
"ACTIVE" unconditionally. -/
def upsertExisting (emp : EmpRec) (name : Option String) (performance : PerfVal)
    (experience : Option ℚ) (role : Option String) (salary : Option ℚ)
    (revenue : Option ℚ) : EmpRec :=
  { emp with name := name, performance := performance,
             experience := experience, role := role, salary := salary,
             revenue := revenue, status := "ACTIVE" }

/-- Decidable equality for `Except` results (not provided by core). -/
instance {ε α : Type} [DecidableEq ε] [DecidableEq α] :
    DecidableEq (Except ε α) := fun a b =>
  match a, b with
  | .error e, .error f =>
      decidable_of_iff (e = f) ⟨by rintro rfl; rfl, by intro h; cases h; rfl⟩
  | .error _, .ok _ => isFalse (by intro h; cases h)
  | .ok _, .error _ => isFalse (by intro h; cases h)
  | .ok x, .ok y =>
      decidable_of_iff (x = y) ⟨by rintro rfl; rfl, by intro h; cases h; rfl⟩

/-- Reference budget factor exactly as claim C1 words it: the factor is
applied "only when budget is present", i.e. whenever a budget figure is
given at all (the spec calls an absent budget "unconstrained"). -/
def specBudgetFactorPresence (budget : Option ℚ) (n : ℕ) (base : ℚ) : ℚ :=
  match budget with
  | none => 1
  | some b =>
      if b / n < base * 0.8 then 0.85
      else if b / n > base * 1.5 then 1.1
      else 1

/-- Claim C1's reference definition of the suggested salary, assembled from
the claim's own wording: performance score, experience-piecewise base,
performance multiplier, revenue blend, budget factor (presence semantics),
round to the nearest 1000, clamp into the band. -/
def specSuggestedSalaryClaim (emp : Emp) (budget : Option ℚ) (n : ℕ) : ℚ :=
  clampToBand (marketFor (roleOf emp))
    (round1000 (blendedOf emp *
      specBudgetFactorPresence budget n (baseOf emp)))

/-- Amended reference budget factor: applied only when the budget is
present and nonzero (a zero budget figure is treated as unconstrained,
matching the source's truthiness guard). -/
def specBudgetFactorTruthy (budget : Option ℚ) (n : ℕ) (base : ℚ) : ℚ :=
  match budget with
  | none => 1
  | some b =>
      if b = 0 then 1
      else if b / n < base * 0.8 then 0.85
      else if b / n > base * 1.5 then 1.1
      else 1

/-- Amended reference definition of the suggested salary (claim C1 with the
budget factor restricted to present-and-nonzero budgets). -/
def specSuggestedSalaryAmended (emp : Emp) (budget : Option ℚ) (n : ℕ) : ℚ :=
  clampToBand (marketFor (roleOf emp))
    (round1000 (blendedOf emp *
      specBudgetFactorTruthy budget n (baseOf emp)))

/-- Concrete input for claim C1: a mid-band developer, no revenue. -/
def empC1 : Emp :=
  { ssid := "C1", role := some "developer", performance := .num 5,
    experience := some 0 }

/-- Concrete input reused by several witnesses: a strong engineer. -/
def empW : Emp :=
  { ssid := "W1", role := some "engineer", performance := .num 9,
    experience := some 6, salary := some 1000000, revenue := some 3000000 }

/-- Concrete input for claim C5's witness: a poor performer. -/
def empLow : Emp :=
  { ssid := "L1", role := some "developer", performance := .num 2,
    salary := some 800000 }

/-- Concrete external payload for claim C7's witness: a lakh-scale
suggested salary (12 instead of 1200000). -/
def pAI : Parsed :=
  { action := some "NO_CHANGE", suggestedSalary := some 12,
    salaryReason := some "Looks fine" }

/-- Concrete input for claim C6's witness. -/
def empP : EmpRec := { ssid := "P1", salary := some 1000000 }

/-- Concrete already-fired employee for claims C3 and C10. -/
def empF : EmpRec :=
  { ssid := "F1", status := "FIRED", salary := some 500000,
    terminatedAt := some 1 }

/-- Concrete input for claim C9's counterexample: a stored suggestion whose
recommended percent is 0. -/
def empC9 : EmpRec :=
  { ssid := "C9", salary := some 500000,
    suggestion := some { action := some "NO_CHANGE",
                         recommended_change_percent := some 0 } }

/-- Concrete input for claim C9's witness: a salaryless employee whose
stored suggestion has a nonzero recommended percent. -/
def empC9b : EmpRec :=
  { ssid := "C9b",
    suggestion := some { action := some "PROMOTE",
                         recommended_change_percent := some 5 } }

/-- Concrete external payload for claim C8's counterexample: a truthy
action outside the four recognized values. -/
def pKeep : Parsed := { action := some "KEEP" }

/-- Concrete engine-side employee for claim C8's counterexample. -/
def empK1 : Emp := { ssid := "K1", role := some "developer",
                     salary := some 600000 }

/-! Helper lemmas shared by the claim theorems. -/

theorem jsRound_floor (q : ℚ) : jsRound q = ⌊q + 1/2⌋ := by
  rw [jsRound, Rat.floor_def', ← Rat.floor_def]

theorem jsRound_intCast (z : ℤ) : jsRound ((z : ℤ) : ℚ) = z := by
  rw [jsRound_floor, Int.floor_int_add]
  norm_num

/-- Evaluation rule for `jsRound` at a concrete rational. -/
theorem jsRound_eq_of (q : ℚ) (z : ℤ) (h1 : (z : ℚ) ≤ q + 1/2)
    (h2 : q + 1/2 < z + 1) : jsRound q = z := by
  rw [jsRound_floor]
  exact Int.floor_eq_iff.mpr ⟨h1, by exact_mod_cast h2⟩

theorem round1000_cast (x : ℚ) :
    round1000 x = ((jsRound (x / 1000) * 1000 : ℤ) : ℚ) := by
  unfold round1000
  push_cast
  ring

/-- The ten distinct market bands of the table. -/
def bandList : List MarketRange :=
  [⟨180000, 300000, 480000⟩, ⟨360000, 500000, 700000⟩,
   ⟨600000, 1000000, 1800000⟩, ⟨1200000, 1800000, 2800000⟩,
   ⟨1500000, 2200000, 3500000⟩, ⟨1200000, 1800000, 3000000⟩,
   ⟨1800000, 2500000, 4000000⟩, ⟨2500000, 4000000, 6000000⟩,
   ⟨400000, 800000, 1500000⟩, ⟨400000, 700000, 1200000⟩]

/-- Whatever the role string, `marketFor` returns one of the table bands. -/
theorem marketFor_mem (role : String) : marketFor role ∈ bandList := by
  unfold marketFor marketLookup
  by_cases h1 : role = "intern"
  · rw [if_pos h1]; decide
  rw [if_neg h1]
  by_cases h2 : role = "junior"
  · rw [if_pos h2]; decide
  rw [if_neg h2]
  by_cases h3 : role = "developer"
  · rw [if_pos h3]; decide
  rw [if_neg h3]
  by_cases h4 : role = "engineer"
  · rw [if_pos h4]; decide
  rw [if_neg h4]
  by_cases h5 : role = "senior developer"
  · rw [if_pos h5]; decide
  rw [if_neg h5]
  by_cases h6 : role = "senior engineer"
  · rw [if_pos h6]; decide
  rw [if_neg h6]
  by_cases h7 : role = "lead"
  · rw [if_pos h7]; decide
  rw [if_neg h7]
  by_cases h8 : role = "manager"
  · rw [if_pos h8]; decide
  rw [if_neg h8]
  by_cases h9 : role = "senior manager"
  · rw [if_pos h9]; decide
  rw [if_neg h9]
  by_cases h10 : role = "director"
  · rw [if_pos h10]; decide
  rw [if_neg h10]
  by_cases h11 : role = "sales"
  · rw [if_pos h11]; decide
  rw [if_neg h11]
  by_cases h12 : role = "unknown"
  · rw [if_pos h12]; decide
  rw [if_neg h12]; decide

/-- Every market band has an integer-valued clamp window with positive
lower end not above the upper end. -/
theorem marketFor_bounds (role : String) :
    ∃ a b : ℤ, (marketFor role).min * 0.9 = (a : ℚ) ∧
      (marketFor role).max * 1.2 = (b : ℚ) ∧
      0 < (a : ℚ) ∧ (a : ℚ) ≤ (b : ℚ) := by
  have h : marketFor role ∈ bandList := marketFor_mem role
  simp only [bandList, List.mem_cons, List.not_mem_nil, or_false] at h
  rcases h with h | h | h | h | h | h | h | h | h | h
  · rw [h]; refine ⟨162000, 576000, ?_, ?_, ?_, ?_⟩ <;> norm_num
  · rw [h]; refine ⟨324000, 840000, ?_, ?_, ?_, ?_⟩ <;> norm_num
  · rw [h]; refine ⟨540000, 2160000, ?_, ?_, ?_, ?_⟩ <;> norm_num
  · rw [h]; refine ⟨1080000, 3360000, ?_, ?_, ?_, ?_⟩ <;> norm_num
  · rw [h]; refine ⟨1350000, 4200000, ?_, ?_, ?_, ?_⟩ <;> norm_num
  · rw [h]; refine ⟨1080000, 3600000, ?_, ?_, ?_, ?_⟩ <;> norm_num
  · rw [h]; refine ⟨1620000, 4800000, ?_, ?_, ?_, ?_⟩ <;> norm_num
  · rw [h]; refine ⟨2250000, 7200000, ?_, ?_, ?_, ?_⟩ <;> norm_num
  · rw [h]; refine ⟨360000, 1800000, ?_, ?_, ?_, ?_⟩ <;> norm_num
  · rw [h]; refine ⟨360000, 1440000, ?_, ?_, ?_, ?_⟩ <;> norm_num

/-- The clamped, 1000-rounded salary is an integer, so the trailing
`Math.round` of the source is the identity: the returned `suggestedSalary`
equals the clamp output itself. -/
theorem suggested_eq (emp : Emp) (budget : Option ℚ) (n : ℕ) :
    (calculateSuggestedSalary emp budget n).suggestedSalary =
      clampToBand (marketFor (roleOf emp))
        (round1000 (blendedOf emp * budgetFactorOf budget n (baseOf emp))) := by
  obtain ⟨a, b, ha, hb, _, _⟩ := marketFor_bounds (roleOf emp)
  have key : clampToBand (marketFor (roleOf emp))
      (round1000 (blendedOf emp * budgetFactorOf budget n (baseOf emp))) =
      ((max a (min b (jsRound (blendedOf emp *
        budgetFactorOf budget n (baseOf emp) / 1000) * 1000)) : ℤ) : ℚ) := by
    rw [round1000_cast]
    unfold clampToBand
    rw [ha, hb]
    push_cast
    ring_nf
  unfold calculateSuggestedSalary
  dsimp only
  rw [key, jsRound_intCast]

/-- The suggested salary always lies inside the clamp window. -/
theorem suggested_bounds (emp : Emp) (budget : Option ℚ) (n : ℕ) :
    (marketFor (roleOf emp)).min * 0.9 ≤
        (calculateSuggestedSalary emp budget n).suggestedSalary ∧
      (calculateSuggestedSalary emp budget n).suggestedSalary ≤
        (marketFor (roleOf emp)).max * 1.2 := by
  obtain ⟨a, b, ha, hb, _, hab⟩ := marketFor_bounds (roleOf emp)
  rw [suggested_eq]
  unfold clampToBand
  refine ⟨le_max_left _ _, max_le ?_ (min_le_left _ _)⟩
  rw [ha, hb]
  exact hab

/-- The suggested salary is strictly positive. -/
theorem suggested_pos (emp : Emp) (budget : Option ℚ) (n : ℕ) :
    0 < (calculateSuggestedSalary emp budget n).suggestedSalary := by
  obtain ⟨a, b, ha, _, hpos, _⟩ := marketFor_bounds (roleOf emp)
  have hlb := (suggested_bounds emp budget n).1
  rw [ha] at hlb
  exact lt_of_lt_of_le hpos hlb

/-- The bridge's post-processing never changes the `action` field. -/
theorem postProcess_action (p : Parsed) (emp : Emp) (sa : SalaryAnalysis)
    (mr : MarketRange) : (postProcess p emp sa mr).action = p.action := by
  unfold postProcess
  dsimp only
  repeat' split
  all_goals rfl

/-- Four mutually exclusive and jointly exhaustive counts add up to the
list length. -/
theorem countP_four {α : Type} (l : List α) (p1 p2 p3 p4 : α → Bool)
    (h : ∀ x ∈ l,
      (p1 x).toNat + (p2 x).toNat + (p3 x).toNat + (p4 x).toNat = 1) :
    l.countP p1 + l.countP p2 + l.countP p3 + l.countP p4 = l.length := by
  induction l with
  | nil => simp
  | cons a t ih =>
      have ha := h a (List.mem_cons_self a t)
      have ht := ih (fun x hx => h x (List.mem_cons_of_mem a hx))
      simp only [List.countP_cons, List.length_cons]
      cases h1 : p1 a <;> cases h2 : p2 a <;> cases h3 : p3 a <;>
        cases h4 : p4 a <;> simp [h1, h2, h3, h4] at ha ⊢ <;> omega

/-- With a configured credential and a parsed payload whose action is
truthy, the orchestrator returns the post-processed payload tagged
"openai". -/
theorem analyzeEmployee_parsed_action (p : Parsed) (emp : Emp)
    (budget : Option ℚ) (n : ℕ) (a : String)
    (hact : (postProcess p emp (calculateSuggestedSalary emp budget n)
      (marketFor (roleOf emp))).action = some a) (ha : a ≠ "") :
    analyzeEmployee true (.parsed p) emp budget n =
      ⟨.fromAI (postProcess p emp (calculateSuggestedSalary emp budget n)
        (marketFor (roleOf emp))), "openai"⟩ := by
  unfold analyzeEmployee callOpenAI
  rw [if_neg (by decide : ¬(true = false))]
  dsimp only
  rw [hact]
  dsimp only
  rw [if_neg ha]

/-! Claim theorems. -/

/-- C2: whenever no external credential is configured, or the external call
fails on the wire (request error, empty body, unparseable payload), or the
parsed payload lacks an action field, `analyzeEmployee` returns exactly the
heuristic suggestion for the same inputs, tagged "heuristic"; being a total
function of these inputs, it never propagates the external failure. -/
theorem c2_orchestrator_fallback (hasKey : Bool) (env : AIEnv) (emp : Emp)
    (budget : Option ℚ) (n : ℕ)
    (h : hasKey = false ∨ env = .requestError ∨ env = .emptyResponse ∨
      env = .unparseable ∨ ∃ p, env = .parsed p ∧ p.action = none) :
    analyzeEmployee hasKey env emp budget n =
      ⟨.fromHeur (heuristicAnalysis emp budget n), "heuristic"⟩ := by
  rcases h with hk | he | he | he | ⟨p, he, hp⟩
  · subst hk; rfl
  · subst he; cases hasKey <;> rfl
  · subst he; cases hasKey <;> rfl
  · subst he; cases hasKey <;> rfl
  · subst he
    cases hasKey
    · rfl
    · have ha : (postProcess p emp (calculateSuggestedSalary emp budget n)
          (marketFor (roleOf emp))).action = none := by
        rw [postProcess_action]; exact hp
      simp [analyzeEmployee, callOpenAI, ha]

/-- Witness for C2 at a concrete input (no credential configured). -/
theorem c2_orchestrator_fallback_witness :
    analyzeEmployee false .requestError empW none 1 =
      ⟨.fromHeur (heuristicAnalysis empW none 1), "heuristic"⟩ :=
  c2_orchestrator_fallback false .requestError empW none 1 (Or.inl rfl)

/-- C4: for every employee, budget and count, the heuristic's suggested
salary lies between 0.9 times the band minimum and 1.2 times the band
maximum of the employee's (lowercased, defaulted) role. -/
theorem c4_suggested_salary_within_band (emp : Emp) (budget : Option ℚ)
    (n : ℕ) :
    (marketFor (roleOf emp)).min * 0.9 ≤
        (calculateSuggestedSalary emp budget n).suggestedSalary ∧
      (calculateSuggestedSalary emp budget n).suggestedSalary ≤
        (marketFor (roleOf emp)).max * 1.2 :=
  suggested_bounds emp budget n

/-- C5: whenever the derived performance score is at most 3 or profit falls
below minus 20 percent of the estimated salary, the heuristic recommends
FIRE, regardless of the other thresholds. -/
theorem c5_fire_has_priority (emp : Emp) (budget : Option ℚ) (n : ℕ)
    (h : perfScoreOf emp.performance ≤ 3 ∨
      profitOf emp < -0.2 * estimatedSalaryOf emp) :
    (heuristicAnalysis emp budget n).action = "FIRE" := by
  show heuristicAction emp budget = "FIRE"
  unfold heuristicAction
  rw [if_pos h]

/-- Witness for C5 at a concrete input (performance 2). -/
theorem c5_fire_has_priority_witness :
    (heuristicAnalysis empLow none 1).action = "FIRE" :=
  c5_fire_has_priority empLow none 1 (Or.inl (by decide))

/-- C1 (amended): for every employee, budget and count of at least 1, the
source's suggested salary equals the claim's reference definition, provided
the budget factor applies only when the budget is present and nonzero (the
source treats a zero budget as unconstrained). -/
theorem c1_suggested_salary_matches_spec (emp : Emp) (budget : Option ℚ)
    (n : ℕ) (hn : 1 ≤ n) :
    (calculateSuggestedSalary emp budget n).suggestedSalary =
      specSuggestedSalaryAmended emp budget n := by
  rw [suggested_eq]
  unfold specSuggestedSalaryAmended
  have hbf : budgetFactorOf budget n (baseOf emp) =
      specBudgetFactorTruthy budget n (baseOf emp) := by
    unfold budgetFactorOf specBudgetFactorTruthy
    cases budget with
    | none => rfl
    | some b =>
        have hn0 : ¬ n = 0 := by omega
        by_cases hb : b = 0
        · simp [hb]
        · simp [hb, hn0]
  rw [hbf]

/-- Witness for C1's amended theorem at a concrete input. -/
theorem c1_suggested_salary_matches_spec_witness :
    (calculateSuggestedSalary empW (some 2000000) 1).suggestedSalary =
      specSuggestedSalaryAmended empW (some 2000000) 1 :=
  c1_suggested_salary_matches_spec empW (some 2000000) 1 (by norm_num)

/-- Counterexample to C1 as stated: with a present budget figure of 0 the
claim's reference definition applies the tight-budget factor 0.85 (the
average budget per employee, 0, is below 0.8 times the base salary), while
the source's truthiness guard skips the factor; at this input the source
yields 600000 but the reference yields 540000. -/
theorem c1_counterexample :
    (calculateSuggestedSalary empC1 (some 0) 1).suggestedSalary ≠
      specSuggestedSalaryClaim empC1 (some 0) 1 := by
  have hrole : roleOf empC1 = "developer" := by decide
  have hband : marketFor (roleOf empC1) = ⟨600000, 1000000, 1800000⟩ := by
    rw [hrole]; decide
  have hbase : baseOf empC1 = 600000 := by
    unfold baseOf baseSalaryOf
    rw [hband]
    norm_num [empC1]
  have hblend : blendedOf empC1 = 600000 := by
    unfold blendedOf revenueBasedOf marketPathOf perfMultiplierOf
    rw [hbase]
    norm_num [empC1, jsOrQ, perfScoreOf, min_def, max_def]
  have hL : (calculateSuggestedSalary empC1 (some 0) 1).suggestedSalary =
      600000 := by
    rw [suggested_eq, hblend, hband]
    have hbf : budgetFactorOf (some 0) 1 (baseOf empC1) = 1 := by
      unfold budgetFactorOf
      norm_num
    rw [hbf]
    have hjs : jsRound ((600000 : ℚ) * 1 / 1000) = 600 :=
      jsRound_eq_of _ 600 (by norm_num) (by norm_num)
    unfold round1000
    rw [hjs]
    unfold clampToBand
    norm_num [min_def, max_def]
  have hR : specSuggestedSalaryClaim empC1 (some 0) 1 = 540000 := by
    unfold specSuggestedSalaryClaim
    rw [hblend, hband]
    have hbf : specBudgetFactorPresence (some 0) 1 (baseOf empC1) = 0.85 := by
      unfold specBudgetFactorPresence
      rw [hbase]
      norm_num
    rw [hbf]
    have hjs : jsRound ((600000 : ℚ) * 0.85 / 1000) = 510 :=
      jsRound_eq_of _ 510 (by norm_num) (by norm_num)
    unfold round1000
    rw [hjs]
    unfold clampToBand
    norm_num [min_def, max_def]
  rw [hL, hR]
  norm_num

/-- C6: for every employee found by the `/action` route with action
PROMOTE and applied percent p, the employee's status becomes ACTIVE, the
salary becomes round(previousSalary * (1 + p/100)), the last-promoted time
is stamped, and exactly one Action record is created whose details carry
the previous salary, new salary and percent. -/
theorem c6_promote_transition (db : List EmpRec) (ssid : String)
    (emp : EmpRec) (note : Option String) (cp : Option ℚ) (now : ℕ)
    (h0 : ssid ≠ "") (hf : db.find? (fun e => e.ssid == ssid) = some emp) :
    applyAction db ssid "PROMOTE" note cp now = .ok
      ({ emp with
          status := "ACTIVE"
          salary := some ((jsRound (previousSalaryOf emp *
            (1 + appliedPercentOf emp "PROMOTE" cp / 100)) : ℤ) : ℚ)
          lastPromotedAt := some now },
       { ssid := ssid, action := "PROMOTE", note := jsNote note,
         details :=
           { effect := "Salary increased",
             previousSalary := some (previousSalaryOf emp),
             newSalary := some ((jsRound (previousSalaryOf emp *
               (1 + appliedPercentOf emp "PROMOTE" cp / 100)) : ℤ) : ℚ),
             changePercent := some (appliedPercentOf emp "PROMOTE" cp) },
         appliedAt := now }) := by
  have h1 : ¬(ssid = "" ∨ "PROMOTE" = "") := by
    rintro (h | h)
    · exact h0 h
    · exact absurd h (by decide)
  have h2 : ¬("PROMOTE" ∉ validActions) := by decide
  unfold applyAction
  rw [if_neg h1, if_neg h2, hf]
  dsimp only
  unfold applyActionToEmp
  rw [if_neg (show ¬("PROMOTE" = "FIRE") by decide), if_pos rfl]

/-- Witness for C6 at the claim's concrete input: percent override 10 on a
current salary of 1,000,000 yields 1,100,000. -/
theorem c6_promote_transition_witness :
    applyAction [empP] "P1" "PROMOTE" none (some 10) 3 = .ok
      ({ empP with
          status := "ACTIVE"
          salary := some 1100000
          lastPromotedAt := some 3 },
       { ssid := "P1", action := "PROMOTE", note := none,
         details := { effect := "Salary increased",
                      previousSalary := some 1000000,
                      newSalary := some 1100000, changePercent := some 10 },
         appliedAt := 3 }) := by
  have h := c6_promote_transition [empP] "P1" empP none (some 10) 3
    (by decide) (by decide)
  rw [h]
  have hprev : previousSalaryOf empP = 1000000 := by decide
  have hpct : appliedPercentOf empP "PROMOTE" (some 10) = 10 := rfl
  have hjs : jsRound ((1000000 : ℚ) * (1 + 10 / 100)) = 1100000 :=
    jsRound_eq_of _ _ (by norm_num) (by norm_num)
  rw [hprev, hpct, hjs]
  norm_num [jsNote]

/-- C9 (amended): with no percent override, the applied percent equals the
stored recommended percent when that value is set and nonzero; with no
stored suggestion the fixed defaults +10 / -10 / 0 apply; and the previous
salary is 0 whenever the employee has no stored nonzero salary, even if a
suggestion exists. -/
theorem c9_percent_and_previous_salary (emp : EmpRec) (action : String) :
    (∀ q : ℚ,
        emp.suggestion.bind (fun sg => sg.recommended_change_percent) =
          some q → q ≠ 0 → appliedPercentOf emp action none = q) ∧
    (emp.suggestion = none →
        appliedPercentOf emp action none =
          (if action = "PROMOTE" then 10
           else if action = "DECREASE_SALARY" then -10 else 0)) ∧
    ((emp.salary = none ∨ emp.salary = some 0) →
        previousSalaryOf emp = 0) := by
  refine ⟨?_, ?_, ?_⟩
  · intro q hq hq0
    unfold appliedPercentOf
    rw [hq]
    simp [jsOrQ, hq0]
  · intro hs
    unfold appliedPercentOf
    rw [hs]
    rfl
  · rintro (hs | hs) <;> unfold previousSalaryOf <;> rw [hs]
    · rfl
    · simp [jsOrQ]

/-- Witness for C9's amended theorem: a stored nonzero percent of 5 is
applied, and a salaryless employee's previous salary falls back to 0. -/
theorem c9_percent_and_previous_salary_witness :
    appliedPercentOf empC9b "PROMOTE" none = 5 ∧
      previousSalaryOf empC9b = 0 :=
  ⟨(c9_percent_and_previous_salary empC9b "PROMOTE").1 5 rfl (by norm_num),
   (c9_percent_and_previous_salary empC9b "PROMOTE").2.2 (Or.inl rfl)⟩

/-- Counterexample to C9 as stated: a stored recommended percent of 0 does
not carry over — the JS `||` treats it as falsy, so PROMOTE applies the
fixed default 10 instead of the stored 0. -/
theorem c9_counterexample :
    empC9.suggestion.bind (fun sg => sg.recommended_change_percent) =
        some 0 ∧
      appliedPercentOf empC9 "PROMOTE" none = 10 := by decide

/-- C10: the `/action` route succeeds exactly when the ssid is non-empty,
the action is one of the four recognized values, and the employee is found;
in particular FIRE on an already-FIRED employee succeeds, re-sets status to
FIRED, overwrites the termination time with the new timestamp, and creates
one Action record whose previous status is the constant "ACTIVE". -/
theorem c10_apply_action_failure_modes (db : List EmpRec)
    (ssid action : String) (note : Option String) (cp : Option ℚ) (now : ℕ) :
    ((applyAction db ssid action note cp now).toOption.isSome = true ↔
      (ssid ≠ "" ∧ action ∈ validActions ∧
        (db.find? (fun e => e.ssid == ssid)).isSome = true)) ∧
    (∀ emp, ssid ≠ "" → db.find? (fun e => e.ssid == ssid) = some emp →
      emp.status = "FIRED" →
      applyAction db ssid "FIRE" note cp now = .ok
        ({ emp with status := "FIRED", terminatedAt := some now },
         { ssid := ssid, action := "FIRE", note := jsNote note,
           details := { effect := "Employee terminated",
                        previousStatus := some "ACTIVE",
                        newStatus := some "FIRED" },
           appliedAt := now })) := by
  constructor
  · unfold applyAction
    by_cases h1 : ssid = "" ∨ action = ""
    · rw [if_pos h1]
      constructor
      · intro h; exact absurd h (by decide)
      · rintro ⟨ha, hb, _⟩
        rcases h1 with h1 | h1
        · exact absurd h1 ha
        · subst h1; exact absurd hb (by decide)
    · rw [if_neg h1]
      push_neg at h1
      by_cases h2 : action ∉ validActions
      · rw [if_pos h2]
        constructor
        · intro h; exact absurd h (by decide)
        · rintro ⟨_, hb, _⟩; exact absurd hb h2
      · rw [if_neg h2]
        push_neg at h2
        cases hf : db.find? (fun e => e.ssid == ssid) with
        | none =>
            constructor
            · intro h; simp [Except.toOption] at h
            · rintro ⟨_, _, h⟩; simp at h
        | some emp =>
            constructor
            · intro _; exact ⟨h1.1, h2, rfl⟩
            · intro _; rfl
  · intro emp h0 hf _
    have h1 : ¬(ssid = "" ∨ "FIRE" = "") := by
      rintro (h | h)
      · exact h0 h
      · exact absurd h (by decide)
    have h2 : ¬("FIRE" ∉ validActions) := by decide
    unfold applyAction
    rw [if_neg h1, if_neg h2, hf]
    dsimp only
    unfold applyActionToEmp
    rw [if_pos rfl]

/-- Witness for C10: re-firing the already-FIRED employee succeeds and
records previousStatus "ACTIVE". -/
theorem c10_apply_action_failure_modes_witness :
    applyAction [empF] "F1" "FIRE" none none 7 = .ok
      ({ empF with status := "FIRED", terminatedAt := some 7 },
       { ssid := "F1", action := "FIRE", note := none,
         details := { effect := "Employee terminated",
                      previousStatus := some "ACTIVE",
                      newStatus := some "FIRED" },
         appliedAt := 7 }) := by
  have h := (c10_apply_action_failure_modes [empF] "F1" "FIRE" none none 7).2
    empF (by decide) (by decide) (by decide)
  rw [h]
  rfl

/-- C3 (code evaluated at the failing input): the claimed invariant fails —
an already-FIRED employee is not excluded from action application, and both
the NO_CHANGE action and the upsert route set the status back to ACTIVE,
performing a FIRED to ACTIVE transition. -/
theorem c3_fired_to_active_transition :
    empF.status = "FIRED" ∧
      (applyAction [empF] "F1" "NO_CHANGE" none none 2).toOption.map
        (fun r => r.1.status) = some "ACTIVE" ∧
      (upsertExisting empF none .undef none none none none).status =
        "ACTIVE" := by decide

/-- C7: when the parsed external payload carries a truthy action and a
nonzero suggested salary below 10000, the bridge substitutes the
heuristic's calculated suggested salary, appends the market-based-fallback
note to the salary rationale, and recomputes the salary difference fields
against the employee's (nonzero) current salary, while the orchestrator
keeps the external path tag. -/
theorem c7_low_salary_sanity_correction (p : Parsed) (emp : Emp)
    (budget : Option ℚ) (n : ℕ) (a : String) (v s : ℚ)
    (hpa : p.action = some a) (ha : a ≠ "")
    (hv : p.suggestedSalary = some v) (hv0 : v ≠ 0) (hv1 : v < 10000)
    (hs : emp.salary = some s) (hs0 : s ≠ 0) :
    analyzeEmployee true (.parsed p) emp budget n =
      ⟨.fromAI { p with
          marketSalaryRange := some (marketFor (roleOf emp))
          currentSalary := some s
          suggestedSalary :=
            some ((calculateSuggestedSalary emp budget n).suggestedSalary)
          salaryReason := some ((p.salaryReason.getD "") ++
            " (Salary calculated using market analysis)")
          salaryDifference :=
            some ((calculateSuggestedSalary emp budget n).suggestedSalary - s)
          salaryDifferencePercent :=
            some ((jsRound
              (((calculateSuggestedSalary emp budget n).suggestedSalary - s)
                / s * 100) : ℤ) : ℚ) },
        "openai"⟩ := by
  have hpos := suggested_pos emp budget n
  have hpost : postProcess p emp (calculateSuggestedSalary emp budget n)
      (marketFor (roleOf emp)) =
      { p with
          marketSalaryRange := some (marketFor (roleOf emp))
          currentSalary := some s
          suggestedSalary :=
            some ((calculateSuggestedSalary emp budget n).suggestedSalary)
          salaryReason := some ((p.salaryReason.getD "") ++
            " (Salary calculated using market analysis)")
          salaryDifference :=
            some ((calculateSuggestedSalary emp budget n).suggestedSalary - s)
          salaryDifferencePercent :=
            some ((jsRound
              (((calculateSuggestedSalary emp budget n).suggestedSalary - s)
                / s * 100) : ℤ) : ℚ) } := by
    unfold postProcess
    dsimp only
    rw [hv, hs]
    dsimp only
    rw [if_pos ⟨hv0, hv1⟩]
    dsimp only
    rw [if_pos ⟨hpos.ne', hs0⟩]
    simp [jsOrQ, hs0]
  have haction : (postProcess p emp (calculateSuggestedSalary emp budget n)
      (marketFor (roleOf emp))).action = some a := by
    rw [postProcess_action]; exact hpa
  rw [analyzeEmployee_parsed_action p emp budget n a haction ha, hpost]

/-- Witness for C7 at a concrete input: the payload suggested 12 (a
lakh-scale answer), which is replaced by the heuristic's figure. -/
theorem c7_low_salary_sanity_correction_witness :
    analyzeEmployee true (.parsed pAI) empW none 1 =
      ⟨.fromAI { pAI with
          marketSalaryRange := some (marketFor (roleOf empW))
          currentSalary := some 1000000
          suggestedSalary :=
            some ((calculateSuggestedSalary empW none 1).suggestedSalary)
          salaryReason := some ((pAI.salaryReason.getD "") ++
            " (Salary calculated using market analysis)")
          salaryDifference :=
            some ((calculateSuggestedSalary empW none 1).suggestedSalary -
              1000000)
          salaryDifferencePercent :=
            some ((jsRound
              (((calculateSuggestedSalary empW none 1).suggestedSalary -
                1000000) / 1000000 * 100) : ℤ) : ℚ) },
        "openai"⟩ :=
  c7_low_salary_sanity_correction pAI empW none 1 "NO_CHANGE" 12 1000000
    rfl (by decide) rfl (by norm_num) (by norm_num) rfl (by norm_num)

/-- C8 (amended): the batch summary's projected savings equal total current
salaries minus total suggested salaries (unset salaries counted as 0), and
the four action-breakdown counters sum to the number of employees analyzed
whenever every resulting suggestion's action is one of the four recognized
values — always true on the heuristic path, but an external payload may
carry an unrecognized action string that lands in no bucket. -/
theorem c8_batch_summary_invariants (hasKey : Bool)
    (pairs : List (Emp × AIEnv)) (budget : Option ℚ)
    (hne : pairs ≠ [])
    (hact : ∀ r ∈ (analyzeAllEmployees hasKey pairs budget).results,
      sugAction r.suggestion.suggestion = some "FIRE" ∨
      sugAction r.suggestion.suggestion = some "PROMOTE" ∨
      sugAction r.suggestion.suggestion = some "DECREASE_SALARY" ∨
      sugAction r.suggestion.suggestion = some "NO_CHANGE") :
    (analyzeAllEmployees hasKey pairs budget).summary.projectedSavings =
      (analyzeAllEmployees hasKey pairs budget).summary.totalCurrentSalaries -
        (analyzeAllEmployees hasKey pairs budget).summary.totalSuggestedSalaries ∧
    (analyzeAllEmployees hasKey pairs budget).summary.actionBreakdown.FIRE +
        (analyzeAllEmployees hasKey pairs budget).summary.actionBreakdown.PROMOTE +
        (analyzeAllEmployees hasKey pairs budget).summary.actionBreakdown.DECREASE_SALARY +
        (analyzeAllEmployees hasKey pairs budget).summary.actionBreakdown.NO_CHANGE =
      (analyzeAllEmployees hasKey pairs budget).summary.totalEmployees := by
  constructor
  · rfl
  · have hsum := countP_four (analyzeAllEmployees hasKey pairs budget).results
      (fun r => sugAction r.suggestion.suggestion == some "FIRE")
      (fun r => sugAction r.suggestion.suggestion == some "PROMOTE")
      (fun r => sugAction r.suggestion.suggestion == some "DECREASE_SALARY")
      (fun r => sugAction r.suggestion.suggestion == some "NO_CHANGE")
      (by
        intro x hx
        rcases hact x hx with h | h | h | h <;> simp only [h] <;> decide)
    have hlen : (analyzeAllEmployees hasKey pairs budget).results.length =
        pairs.length := by
      show (pairs.map _).length = pairs.length
      exact List.length_map _ _
    rw [hlen] at hsum
    exact hsum

/-- Witness for C8's amended theorem: a one-employee heuristic-path batch. -/
theorem c8_batch_summary_invariants_witness :
    (analyzeAllEmployees false [(empLow, .requestError)]
        (some 5000000)).summary.projectedSavings =
      (analyzeAllEmployees false [(empLow, .requestError)]
          (some 5000000)).summary.totalCurrentSalaries -
        (analyzeAllEmployees false [(empLow, .requestError)]
            (some 5000000)).summary.totalSuggestedSalaries ∧
    (analyzeAllEmployees false [(empLow, .requestError)]
          (some 5000000)).summary.actionBreakdown.FIRE +
        (analyzeAllEmployees false [(empLow, .requestError)]
            (some 5000000)).summary.actionBreakdown.PROMOTE +
        (analyzeAllEmployees false [(empLow, .requestError)]
            (some 5000000)).summary.actionBreakdown.DECREASE_SALARY +
        (analyzeAllEmployees false [(empLow, .requestError)]
            (some 5000000)).summary.actionBreakdown.NO_CHANGE =
      (analyzeAllEmployees false [(empLow, .requestError)]
          (some 5000000)).summary.totalEmployees :=
  c8_batch_summary_invariants false [(empLow, .requestError)] (some 5000000)
    (by decide) (by decide)

/-- Counterexample to C8 as stated: with a configured credential and an
external payload whose action is the unrecognized string "KEEP", the
orchestrator accepts the payload (the action is truthy), so the four
breakdown counters sum to 0 while one employee was analyzed. -/
theorem c8_counterexample :
    (analyzeAllEmployees true [(empK1, .parsed pKeep)]
          (some 1000000)).summary.actionBreakdown.FIRE +
        (analyzeAllEmployees true [(empK1, .parsed pKeep)]
            (some 1000000)).summary.actionBreakdown.PROMOTE +
        (analyzeAllEmployees true [(empK1, .parsed pKeep)]
            (some 1000000)).summary.actionBreakdown.DECREASE_SALARY +
        (analyzeAllEmployees true [(empK1, .parsed pKeep)]
            (some 1000000)).summary.actionBreakdown.NO_CHANGE ≠
      (analyzeAllEmployees true [(empK1, .parsed pKeep)]
          (some 1000000)).summary.totalEmployees := by decide

end PowerFour
